import Mathlib

/-!
Verification of the DefaultAI decision engine (src/src/economy/transport.h).

The definitions below are a shallow embedding of the functions of the
engine that the claims are about.  Machine integers of the source are
modelled as Nat for values that are counts (they are non-negative at the
modelled program points) and as Int where the source value can be
negative (game times, priorities, time stamps).  Each definition carries
a reference to the source lines it embeds.
-/

set_option autoImplicit false

namespace DefaultAIModel

/-! ### Strategic stop flag (construct_building, lines 1247-1273) -/

/--
Embeds transport.h lines 1247-1273 of DefaultAI::construct_building.
The flag starts at false, is switched to true by any of the four
overbuild conditions, and is switched back to false when an enemy was
seen less than two minutes ago.  All counters are non-negative in the
source (sizes and unsigned counters), so they are modelled as Nat;
enemy_last_seen and gametime are int32 in the source and are modelled
as Int.
-/
def new_buildings_stop (num_prod_constructionsites productionsites_size spots
    num_milit_constructionsites militarysites_size mines_size : Nat)
    (enemy_last_seen gametime : Int) : Bool :=
  let s0 := false
  -- 1. to not have too many constructionsites
  let s1 := if num_prod_constructionsites > productionsites_size / 7 + 2 then true else s0
  -- 2. to not exhaust all free spots
  let s2 := if spots * 3 / 2 + 5 < productionsites_size then true else s1
  -- 3. to keep some proportions production sites vs military sites
  let s3 := if num_prod_constructionsites + productionsites_size >
      (num_milit_constructionsites + militarysites_size) * 3 then true else s2
  -- 4. if we do not have 3 mines at least
  let s4 := if mines_size < 3 then true else s3
  -- BUT if enemy is nearby, we cancel above stop
  if s4 ∧ enemy_last_seen + 2 * 60 * 1000 > gametime then false else s4

/-! ### Fish recount condition (update_buildable_field, line 949) -/

/-- Result of the fish counting step of update_buildable_field. -/
structure FishScanResult where
  recount : Bool
  fish_nearby : Int
  deriving DecidableEq, Repr

/--
Embeds transport.h line 949-954 with the C++ semantics of the source
text: the condition is written
  water_nearby_ > 0 && (fish_nearby_ = -1 || gametime % 10 == 0)
where the inner expression is an ASSIGNMENT, not a comparison.  It
stores the value of (-1 || gametime % 10 == 0), which is true (stored
as 1), into fish_nearby_, and its value 1 is nonzero, so whenever
water_nearby_ > 0 the whole condition holds and the field is recounted
(fish_nearby_ is then overwritten with the number of found fish nodes,
fish_found).  When water_nearby_ <= 0 the right operand is not
evaluated and fish_nearby_ keeps its previous value.
-/
def fish_rescan_src (water_nearby fish_nearby : Int) (gametime : Nat)
    (fish_found : Int) : FishScanResult :=
  if water_nearby > 0 then
    { recount := true, fish_nearby := fish_found }
  else
    { recount := false, fish_nearby := fish_nearby }

/--
Modelled from the spec: the intended fish recount gate, with the
comparison fish_nearby == -1 the spec asks for (the equality test on a
never-computed value) instead of the assignment that the source text
contains.  The spec states the value is recounted only when it has
never been computed or on every 10th tick.
-/
def fish_rescan_intended (water_nearby fish_nearby : Int) (gametime : Nat)
    (fish_found : Int) : FishScanResult :=
  if water_nearby > 0 ∧ (fish_nearby = -1 ∨ gametime % 10 = 0) then
    { recount := true, fish_nearby := fish_found }
  else
    { recount := false, fish_nearby := fish_nearby }

/-! ### Theorems for claims C2 and C5 -/

/--
Claim C2: new_buildings_stop is set exactly when one of the four
conditions holds (production construction sites > productionsites/7+2,
spots*3/2+5 < productionsites, production+cs > 3*(military+cs), fewer
than 3 mines) and no enemy was seen within the last two minutes; with
productionsites = 30 it is not triggered by 6 production construction
sites, but is triggered by 7.
-/
theorem C2_new_buildings_stop_rule :
    (∀ (npc ps spots nmc ms mines : Nat) (els gt : Int),
      new_buildings_stop npc ps spots nmc ms mines els gt =
        ((decide (npc > ps / 7 + 2) || decide (spots * 3 / 2 + 5 < ps) ||
          decide (npc + ps > (nmc + ms) * 3) || decide (mines < 3)) &&
         !(decide (els + 2 * 60 * 1000 > gt))))
    ∧ new_buildings_stop 6 30 100 0 20 3 (-200000) 0 = false
    ∧ new_buildings_stop 7 30 100 0 20 3 (-200000) 0 = true := by
  refine ⟨?_, by decide, by decide⟩
  intro npc ps spots nmc ms mines els gt
  simp only [new_buildings_stop]
  by_cases h1 : npc > ps / 7 + 2 <;>
    by_cases h2 : spots * 3 / 2 + 5 < ps <;>
      by_cases h3 : npc + ps > (nmc + ms) * 3 <;>
        by_cases h4 : mines < 3 <;>
          by_cases h5 : els + 2 * 60 * 1000 > gt <;>
            simp [h1, h2, h3, h4, h5]

/--
Claim C5 (code bug): at a field with positive water_nearby, a stored
fish count of 7 (so it has been computed before) and gametime 5 (not a
10th tick), the claim requires the stored value to stay unchanged, but
the source recounts: the assignment written in the condition at line
949 makes the condition true whenever water_nearby > 0, so the field is
rescanned (here finding 0 fish) and the stored 7 is lost.  The intended
gate keeps the 7.
-/
theorem C5_fish_rescan_code_bug :
    (fish_rescan_src 1 7 5 0).recount = true ∧
    (fish_rescan_src 1 7 5 0).fish_nearby = 0 ∧
    fish_rescan_intended 1 7 5 0 = { recount := false, fish_nearby := 7 } := by
  refine ⟨rfl, rfl, ?_⟩
  simp [fish_rescan_intended]

/-! ### Attack decision (consider_attack, lines 3413-3454) -/

/-- Personality of a DefaultAI instance (type_ in the source). -/
inductive AiType
  | aggressive
  | normal
  | defensive
  deriving DecidableEq, Repr

/-- Embeds transport.h lines 3413-3420: the personality threshold. -/
def attack_treshold : AiType → Nat
  | .aggressive => 80
  | .normal => 100
  | .defensive => 120

/--
Embeds transport.h lines 3426-3453: the attackability decision for one
entry j of the loop over players.  genstats is the general statistics
vector, one military-strength series per player; index j-1 of the
vector belongs to player j.  A failing .at() access throws
std::out_of_range which the source catches and turns into
"not attackable", modelled by the none branches of get?.  An empty
series of the opponent is tested explicitly by the source and also
yields "not attackable".  A series .back() call is modelled by
getLast?.
-/
def consider_attack_attackable (genstats : List (List Nat)) (pn j : Nat)
    (ty : AiType) : Bool :=
  if pn = j then false
  else
    match genstats[j - 1]? with
    | none => false
    | some opp =>
      match opp.getLast? with
      | none => false
      | some ob =>
        if ob = 0 then true
        else
          match genstats[pn - 1]? with
          | none => false
          | some own =>
            match own.getLast? with
            | none => false
            | some wb => decide (wb * 100 / ob > attack_treshold ty)

/-! ### Mineable field update (update_mineable_field, lines 1107-1136)
    and the mine nearness penalty (construct_building, lines 1940-1966) -/

/-- One immovable found within radius 5 of a mineable field. -/
structure MineImm where
  ismine : Bool
  is_constructionsite : Bool
  cs_target_ismine : Bool
  deriving DecidableEq, Repr

/--
Embeds the counting body of the loop at transport.h lines 1125-1135:
a built mine counts, otherwise a construction site whose target
building is a mine counts.
-/
def mine_count_step (n : Nat) (m : MineImm) : Nat :=
  if m.ismine then n + 1
  else if m.is_constructionsite ∧ m.cs_target_ismine then n + 1
  else n

/--
Embeds transport.h line 1114 and the loop 1125-1135: the counter is
initialised to 1, then incremented once per nearby mine or mine
construction site.
-/
def mines_nearby (imms : List MineImm) : Nat :=
  imms.foldl mine_count_step 1

/-- The number of mines and mine construction sites actually found. -/
def actual_mines_nearby (imms : List MineImm) : Nat :=
  imms.foldl mine_count_step 0

/-- Embeds transport.h lines 1942-1947: the nearness penalty factor. -/
def nearness_penalty (cnt_built cnt_under_construction : Nat) : Nat :=
  if cnt_built + cnt_under_construction = 0 then 0 else 10

/-- Embeds transport.h lines 1958-1961: the mine candidate priority. -/
def mine_priority (resource_amount : Int) (mnear penalty : Nat) : Int :=
  resource_amount - mnear * penalty

/-- mine_count_step adds the contribution of m to any start value. -/
theorem mine_count_step_shift (n : Nat) (m : MineImm) :
    mine_count_step n m = n + mine_count_step 0 m := by
  unfold mine_count_step
  by_cases h1 : m.ismine <;> by_cases h2 : m.is_constructionsite ∧ m.cs_target_ismine <;>
    simp [h1, h2]

/-- The fold computing mines_nearby is a shifted count. -/
theorem mines_foldl_shift (imms : List MineImm) :
    ∀ n : Nat, imms.foldl mine_count_step n = n + imms.foldl mine_count_step 0 := by
  induction imms with
  | nil => intro n; simp
  | cons m ms ih =>
    intro n
    simp only [List.foldl_cons]
    rw [ih (mine_count_step n m), ih (mine_count_step 0 m),
        mine_count_step_shift n m]
    omega

/-! ### Theorems for claims C3 and C10 -/

/--
Claim C3: an opponent j of player pn is attackable exactly when the
latest strength ratio own*100/opp strictly exceeds the personality
threshold (aggressive 80, normal 100, defensive 120), except that an
opponent whose latest strength sample is zero is attackable and an
opponent with a missing or empty statistics entry is not attackable
(the out_of_range exception is caught inside the function).  Stated for
a host state in which the own statistics entry exists and is non-empty
(otherwise the source .back() call is undefined behaviour).
-/
theorem C3_consider_attack_attackable_rule
    (genstats : List (List Nat)) (pn j : Nat) (ty : AiType) (own : List Nat)
    (wb : Nat) (hpn : pn ≠ j) (hown : genstats[pn - 1]? = some own)
    (hwb : own.getLast? = some wb) :
    consider_attack_attackable genstats pn j ty = true ↔
      ∃ opp ob, genstats[j - 1]? = some opp ∧ opp.getLast? = some ob ∧
        (ob = 0 ∨ wb * 100 / ob > attack_treshold ty) := by
  cases hopp : genstats[j - 1]? with
  | none =>
    simp [consider_attack_attackable, hpn, hopp]
  | some opp =>
    cases hob : opp.getLast? with
    | none => simp [consider_attack_attackable, hpn, hopp, hob]
    | some ob =>
      by_cases hz : ob = 0
      · simp [consider_attack_attackable, hpn, hopp, hob, hz]
      · simp [consider_attack_attackable, hpn, hopp, hob, hz, hown, hwb]

/--
Witness for C3: own strength 200, opponent strength 150, normal
personality: 200*100/150 = 133 > 100, so the opponent is attackable.
-/
theorem C3_witness :
    consider_attack_attackable [[200], [150]] 1 2 AiType.normal = true := by
  have h := C3_consider_attack_attackable_rule [[200], [150]] 1 2 AiType.normal
    [200] 200 (by decide) rfl rfl
  rw [h]
  exact ⟨[150], 150, rfl, rfl, Or.inr (by decide)⟩

/--
Claim C10: after update_mineable_field the counter mines_nearby is at
least 1 even when nothing was counted, it equals the actual number of
nearby mines and mine construction sites plus one, and consequently in
the mine planner priority the penalty term, once a mine of the type
exists, is (actual count + 1) * 10.
-/
theorem C10_mines_nearby_at_least_one (imms : List MineImm)
    (resource_amount : Int) (cnt_built cnt_under_construction : Nat) :
    1 ≤ mines_nearby imms ∧
    mines_nearby imms = actual_mines_nearby imms + 1 ∧
    (0 < cnt_built + cnt_under_construction →
      mine_priority resource_amount (mines_nearby imms)
          (nearness_penalty cnt_built cnt_under_construction) =
        resource_amount - (actual_mines_nearby imms + 1) * 10) := by
  have hshift := mines_foldl_shift imms 1
  refine ⟨?_, ?_, ?_⟩
  · unfold mines_nearby
    rw [hshift]
    omega
  · unfold mines_nearby actual_mines_nearby
    rw [hshift]
    omega
  · intro hpos
    unfold mine_priority nearness_penalty mines_nearby actual_mines_nearby
    rw [if_neg (by omega), hshift]
    push_cast
    ring

/--
Witness for C10: a field with one nearby mine, resource amount 50, and
one mine of this type already built: the penalty term is (1+1)*10.
-/
theorem C10_witness :
    mine_priority 50 (mines_nearby [⟨true, false, false⟩])
        (nearness_penalty 1 0) =
      50 - (actual_mines_nearby [⟨true, false, false⟩] + 1) * 10 :=
  (C10_mines_nearby_at_least_one [⟨true, false, false⟩] 50 1 0).2.2 (by decide)

/-! ### Shortcut-road entry escalator (create_shortcut_road, lines 2226-2255) -/

/-- Observable effect of the entry section of create_shortcut_road. -/
structure ShortcutEntryResult where
  failed_connection_tries : Nat
  bulldozed : Bool
  blocked_until : Option Int
  road_search : Bool
  deriving DecidableEq, Repr

/--
Embeds transport.h lines 2226-2255: the counter is incremented when the
economy of the flag has no warehouse (and reset to 0 otherwise); when
the updated counter exceeds 3 + flags^2 the function returns before any
road search, and if a building stands at the flag the tile of the
building is pushed as a blocked field for 15 minutes and the flag (with
its building) is bulldozed.  Otherwise the function goes on to collect
reachable fields (the road search).
-/
def create_shortcut_road_entry (tries flags_count : Nat)
    (has_warehouse has_building : Bool) (gametime : Int) : ShortcutEntryResult :=
  let tries2 := if has_warehouse then 0 else tries + 1
  if tries2 > 3 + flags_count * flags_count then
    if has_building then
      { failed_connection_tries := tries2, bulldozed := true,
        blocked_until := some (gametime + 15 * 60 * 1000), road_search := false }
    else
      { failed_connection_tries := tries2, bulldozed := false,
        blocked_until := none, road_search := false }
  else
    { failed_connection_tries := tries2, bulldozed := false,
      blocked_until := none, road_search := true }

/-! ### Blocked fields (construct_building, lines 1330-1370 and 2005-2033) -/

/-- A map coordinate pair. -/
abbrev Coord := Int × Int

/--
Embeds transport.h lines 1330-1336: entries whose blocked_until_ lies
strictly before the current gametime are erased; all others are kept.
-/
def purge_blocked (blocked : List (Coord × Int)) (gametime : Int) :
    List (Coord × Int) :=
  blocked.filter (fun e => !decide (e.2 < gametime))

/--
Embeds transport.h lines 1358-1370: a buildable field is skipped by the
candidate scan when its coordinates match a remaining blocked entry.
-/
def field_blocked (blocked : List (Coord × Int)) (c : Coord) : Bool :=
  blocked.any (fun e => decide (e.1 = c))

/-- The blocks pushed when a build command is emitted. -/
structure EmittedBlocks where
  site_block_until : Int
  ring : Option (Nat × Int)
  deriving DecidableEq, Repr

/--
Embeds transport.h lines 2005-2033: every emitted build pushes a block
of 120 s at the site; additionally, when the building is a
space consumer that does not plant trees, or a military site, the
region around the site is blocked: a 3-ring for 45 minutes when the
building is a space consumer, else (military) a 6-ring for 25 s.
-/
def emit_build_blocks (space_consumer plants_trees is_military : Bool)
    (gametime : Int) : EmittedBlocks :=
  { site_block_until := gametime + 120000,
    ring :=
      if (space_consumer ∧ ¬plants_trees) ∨ is_military then
        if space_consumer then some (3, gametime + 45 * 60 * 1000)
        else some (6, gametime + 25 * 1000)
      else none }

/-! ### Theorems for claims C6 and C9 -/

/--
Claim C6: create_shortcut_road increments failed_connection_tries on
every call where the economy of the starting flag has no warehouse, and
whenever the counter exceeds 3 + flags^2 and a building stands at the
flag, the building is bulldozed, its tile is blocked for 15 minutes,
and no road search happens on that call.
-/
theorem C6_create_shortcut_road_escalator (tries flags_count : Nat)
    (hw hb : Bool) (gametime : Int) :
    (hw = false →
      (create_shortcut_road_entry tries flags_count hw hb
          gametime).failed_connection_tries = tries + 1) ∧
    ((create_shortcut_road_entry tries flags_count hw hb
        gametime).failed_connection_tries > 3 + flags_count * flags_count →
      (create_shortcut_road_entry tries flags_count hw hb
          gametime).road_search = false ∧
      (hb = true →
        (create_shortcut_road_entry tries flags_count hw hb
            gametime).bulldozed = true ∧
        (create_shortcut_road_entry tries flags_count hw hb
            gametime).blocked_until = some (gametime + 15 * 60 * 1000))) := by
  unfold create_shortcut_road_entry
  by_cases hhw : hw = true
  · subst hhw
    by_cases hgt : 0 > 3 + flags_count * flags_count
    · omega
    · simp [hgt]
  · replace hhw : hw = false := by
      cases hw
      · rfl
      · exact absurd rfl hhw
    subst hhw
    by_cases hgt : tries + 1 > 3 + flags_count * flags_count
    · cases hb <;> simp [hgt]
    · simp [hgt]

/--
Witness for C6: an economy with 1 flag and no warehouse whose counter
is already 4: the fifth failure exceeds 3 + 1 and the building is
bulldozed with a 15-minute block, without a road search.
-/
theorem C6_witness :
    (create_shortcut_road_entry 4 1 false true 60000).failed_connection_tries
        = 5 ∧
    (create_shortcut_road_entry 4 1 false true 60000).road_search = false ∧
    (create_shortcut_road_entry 4 1 false true 60000).bulldozed = true ∧
    (create_shortcut_road_entry 4 1 false true 60000).blocked_until
        = some 960000 := by
  have h := C6_create_shortcut_road_escalator 4 1 false true 60000
  have h1 := h.1 rfl
  have h2 := h.2 (by rw [h1]; decide)
  have h3 := h2.2 rfl
  exact ⟨h1, h2.1, h3.1, by rw [h3.2]; norm_num⟩

/--
Counterexample for C9: a blocked entry whose expiry tick equals the
current gametime is kept by the purge (only strictly smaller ticks are
erased) and is consulted by the scan, so the consulted entry does not
satisfy blocked_until > current tick as the claim states.
-/
theorem C9_counterexample :
    purge_blocked [((0, 0), 100)] 100 = [((0, 0), 100)] ∧
    field_blocked (purge_blocked [((0, 0), 100)] 100) (0, 0) = true ∧
    ¬((100 : Int) > 100) := by
  refine ⟨?_, ?_, by decide⟩ <;> rfl

/--
Claim C9 (amended): every blocked entry that the scans consult
satisfies blocked_until >= current tick (entries expiring exactly at
the current tick are kept); a field is skipped exactly when a kept
entry matches its coordinates; each emitted build pushes a 120 s block
at the site, plus a 3-ring block of 45 minutes for space consumers that
are not tree planters, or a 6-ring block of 25 s for military sites
(that are not space consumers).
-/
theorem C9_blocked_fields_rule (blocked : List (Coord × Int)) (t : Int)
    (c : Coord) (sc pt mil : Bool) :
    (∀ e ∈ purge_blocked blocked t, e.2 ≥ t) ∧
    (field_blocked (purge_blocked blocked t) c = true ↔
      ∃ e ∈ blocked, e.1 = c ∧ e.2 ≥ t) ∧
    (emit_build_blocks sc pt mil t).site_block_until = t + 120000 ∧
    (sc = true → pt = false →
      (emit_build_blocks sc pt mil t).ring = some (3, t + 45 * 60 * 1000)) ∧
    (mil = true → sc = false →
      (emit_build_blocks sc pt mil t).ring = some (6, t + 25 * 1000)) := by
  refine ⟨?_, ?_, rfl, ?_, ?_⟩
  · intro e he
    have := List.of_mem_filter he
    simp only [Bool.not_eq_true', decide_eq_false_iff_not, not_lt] at this
    exact this
  · unfold field_blocked purge_blocked
    simp only [List.any_eq_true, List.mem_filter, decide_eq_true_eq,
      Bool.not_eq_true', decide_eq_false_iff_not, not_lt]
    constructor
    · rintro ⟨e, ⟨he, hge⟩, hc⟩
      exact ⟨e, he, hc, hge⟩
    · rintro ⟨e, he, hc, hge⟩
      exact ⟨e, ⟨he, hge⟩, hc⟩
  · intro hsc hpt
    subst hsc; subst hpt
    simp [emit_build_blocks]
  · intro hmil hsc
    subst hmil; subst hsc
    simp [emit_build_blocks]

/--
Witness for C9: one live entry and one expired entry; the live entry
survives the purge and blocks its field; a space-consumer build at tick
1000 blocks a 3-ring until tick 2701000.
-/
theorem C9_witness :
    (∀ e ∈ purge_blocked [((0, 0), 2000), ((1, 1), 500)] 1000, e.2 ≥ 1000) ∧
    (emit_build_blocks true false false 1000).ring = some (3, 2701000) := by
  have h := C9_blocked_fields_rule [((0, 0), 2000), ((1, 1), 500)] 1000 (0, 0)
    true false false
  refine ⟨h.1, ?_⟩
  have := h.2.2.2.1 rfl rfl
  rw [this]
  norm_num

/-! ### Road splitting (improve_roads, lines 2056-2091) -/

/--
Embeds the two-ended walk of transport.h lines 2065-2084: the path
coordinates are indexed 0..nsteps, caps k tells whether coordinate k is
flag-capable, i runs down from nsteps-1 and j up from 1, the loop runs
while i >= j, checking index i first and then index j, and returns the
first flag-capable index found.
-/
def split_walk (caps : Nat → Bool) (i j : Nat) : Option Nat :=
  if j ≤ i then
    if caps i then some i
    else if caps j then some j
    else split_walk caps (i - 1) (j + 1)
  else none
termination_by i + 1 - j
decreasing_by omega

/-- The command (if any) the front-road treatment of improve_roads emits. -/
inductive RoadAction
  | keep
  | build_flag (c : Nat)
  | bulldoze
  deriving DecidableEq, Repr

/--
Embeds transport.h lines 2056-2088: the front road is split only when
there are strictly more than 20 free building spots and the path of the
road has strictly more than 3 steps; then the walk looks for a
flag-capable coordinate and the road is bulldozed when there is none.
-/
def improve_roads_front (spots nsteps : Nat) (caps : Nat → Bool) : RoadAction :=
  if spots > 20 then
    if nsteps > 3 then
      match split_walk caps (nsteps - 1) 1 with
      | some c => .build_flag c
      | none => .bulldoze
    else .keep
  else .keep

/-- split_walk returns none exactly when no index in [j, i] is capable. -/
theorem split_walk_eq_none_iff (caps : Nat → Bool) :
    ∀ n i j, i + 1 - j ≤ n →
      (split_walk caps i j = none ↔
        ∀ k, j ≤ k → k ≤ i → caps k = false) := by
  intro n
  induction n with
  | zero =>
    intro i j hle
    rw [split_walk]
    have hji : ¬j ≤ i := by omega
    simp only [if_neg hji]
    constructor
    · intro _ k hjk hki
      omega
    · intro _
      trivial
  | succ n ih =>
    intro i j hle
    rw [split_walk]
    by_cases hji : j ≤ i
    · simp only [if_pos hji]
      by_cases hci : caps i
      · simp only [if_pos hci]
        constructor
        · intro h
          exact absurd h (by simp)
        · intro h
          exact absurd hci (by simp [h i hji le_rfl])
      · simp only [if_neg hci]
        by_cases hcj : caps j
        · simp only [if_pos hcj]
          constructor
          · intro h
            exact absurd h (by simp)
          · intro h
            exact absurd hcj (by simp [h j le_rfl hji])
        · simp only [if_neg hcj]
          rw [ih (i - 1) (j + 1) (by omega)]
          constructor
          · intro h k hjk hki
            by_cases hk1 : k = i
            · subst hk1
              exact Bool.eq_false_iff.mpr hci
            · by_cases hk2 : k = j
              · subst hk2
                exact Bool.eq_false_iff.mpr hcj
              · exact h k (by omega) (by omega)
          · intro h k hjk hki
            exact h k (by omega) (by omega)
    · simp only [if_neg hji]
      constructor
      · intro _ k hjk hki
        omega
      · intro _
        trivial

/-- A found split index is capable and lies in the walked range. -/
theorem split_walk_some_spec (caps : Nat → Bool) :
    ∀ n i j c, i + 1 - j ≤ n → split_walk caps i j = some c →
      caps c = true ∧ j ≤ c ∧ c ≤ i := by
  intro n
  induction n with
  | zero =>
    intro i j c hle h
    rw [split_walk] at h
    have hji : ¬j ≤ i := by omega
    rw [if_neg hji] at h
    exact absurd h (by simp)
  | succ n ih =>
    intro i j c hle h
    rw [split_walk] at h
    by_cases hji : j ≤ i
    · rw [if_pos hji] at h
      by_cases hci : caps i
      · rw [if_pos hci] at h
        cases h
        exact ⟨hci, hji, le_rfl⟩
      · rw [if_neg hci] at h
        by_cases hcj : caps j
        · rw [if_pos hcj] at h
          cases h
          exact ⟨hcj, le_rfl, hji⟩
        · rw [if_neg hcj] at h
          have := ih (i - 1) (j + 1) c (by omega) h
          exact ⟨this.1, by omega, by omega⟩
    · rw [if_neg hji] at h
      exact absurd h (by simp)

/--
Counterexample for C7: with exactly 20 free building spots and a road
of 5 path steps whose every coordinate is flag-capable, the source
takes no action at all (the guard is spots_ > 20, strict), while the
claim states that exactly 20 free spots suffice to trigger the split.
-/
theorem C7_counterexample :
    improve_roads_front 20 5 (fun _ => true) = RoadAction.keep ∧
    improve_roads_front 21 5 (fun _ => true) = RoadAction.build_flag 4 := by
  constructor
  · rfl
  · rw [improve_roads_front]
    norm_num
    rw [split_walk]
    norm_num

/--
Claim C7 (amended): on a road-improvement call where the front road has
more than 3 path steps and there are strictly more than 20 free
building spots (at least 21; exactly 20 do not suffice), improve_roads
walks the path of the road from both ends inward and emits build_flag
at the first flag-capable interior coordinate found; if no interior
coordinate of the path is flag-capable it bulldozes that road.
-/
theorem C7_road_split_rule (spots nsteps : Nat) (caps : Nat → Bool)
    (hs : spots > 20) (hn : nsteps > 3) :
    (improve_roads_front spots nsteps caps = RoadAction.bulldoze ↔
      ∀ k, 1 ≤ k → k ≤ nsteps - 1 → caps k = false) ∧
    (∀ c, improve_roads_front spots nsteps caps = RoadAction.build_flag c →
      caps c = true ∧ 1 ≤ c ∧ c ≤ nsteps - 1) ∧
    improve_roads_front spots nsteps caps ≠ RoadAction.keep := by
  unfold improve_roads_front
  rw [if_pos hs, if_pos hn]
  refine ⟨?_, ?_, ?_⟩
  · cases hw : split_walk caps (nsteps - 1) 1 with
    | none =>
      simp only []
      rw [← split_walk_eq_none_iff caps (nsteps - 1 + 1 - 1) (nsteps - 1) 1
        le_rfl]
      simp [hw]
    | some c =>
      simp only []
      constructor
      · intro h
        exact absurd h (by simp)
      · intro h
        have hnone : split_walk caps (nsteps - 1) 1 = none :=
          (split_walk_eq_none_iff caps (nsteps - 1 + 1 - 1) (nsteps - 1) 1
            le_rfl).mpr h
        rw [hw] at hnone
        exact absurd hnone (by simp)
  · intro c h
    cases hw : split_walk caps (nsteps - 1) 1 with
    | none => rw [hw] at h; exact absurd h (by simp)
    | some c2 =>
      rw [hw] at h
      simp only [RoadAction.build_flag.injEq] at h
      subst h
      exact split_walk_some_spec caps (nsteps - 1 + 1 - 1) (nsteps - 1) 1 c2
        le_rfl hw
  · cases hw : split_walk caps (nsteps - 1) 1 <;> simp

/--
Witness for C7 (amended rule): spots 21, a 5-step road whose only
flag-capable coordinate is 2: the walk finds it (so no bulldoze), and
index 2 is interior.
-/
theorem C7_witness :
    improve_roads_front 21 5 (fun k => decide (k = 2)) ≠ RoadAction.keep :=
  (C7_road_split_rule 21 5 (fun k => decide (k = 2)) (by decide)
    (by decide)).2.2

/-! ### Wall-clock dependence of the candidate scan
    (construct_building, lines 1376-1412, and the wall-clock read at
    line 1392) -/

/-- The per-building data read by the gates of the candidate scan. -/
structure BuildingCandidate where
  buildable : Bool
  prohibited_till : Int
  size : Nat
  total_count : Nat
  is_mine : Bool
  construction_decision_time : Int
  need_trees : Bool
  unoccupied : Bool
  is_militarysite : Bool
  cnt_under_construction : Nat
  deriving DecidableEq, Repr

/-- Embeds the constant kBuildingMinInterval = 25 * 1000 (line 395). -/
def kBuildingMinInterval : Int := 25 * 1000

/--
Embeds the gate chain of transport.h lines 1376-1412 that decides
whether a building type is evaluated on a field at all.  The wallclock
parameter is the value of the C call time(nullptr) at line 1392: a
building type with total_count > 0 is skipped whenever
wallclock % 3 == 0.
-/
def candidate_passes_gates (wallclock : Nat) (gametime : Int) (maxsize : Nat)
    (bo : BuildingCandidate) : Bool :=
  if ¬bo.buildable then false
  else if bo.prohibited_till > gametime then false
  else if bo.size > maxsize then false
  else if wallclock % 3 = 0 ∧ bo.total_count > 0 then false
  else if bo.is_mine then false
  else if gametime - bo.construction_decision_time < kBuildingMinInterval ∧
      ¬bo.need_trees then false
  else if bo.unoccupied then false
  else if ¬bo.is_militarysite ∧ bo.cnt_under_construction ≥ 2 then false
  else true

/--
A candidate that passes every game-state gate but has total_count = 1,
exercising the wall-clock gate of line 1392.
-/
def c1_candidate : BuildingCandidate :=
  { buildable := true, prohibited_till := 0, size := 1, total_count := 1,
    is_mine := false, construction_decision_time := -3600000,
    need_trees := false, unoccupied := false, is_militarysite := false,
    cnt_under_construction := 0 }

/--
Counterexample for C1: the candidate scan of construct_building reads
the wall clock (time(nullptr) at line 1392): on identical game state,
identical observer state and the same tick, the same candidate is
skipped when the wall clock is 0 mod 3 and evaluated when it is 1 mod
3, so two executions differing only in real-world time do not behave
identically.
-/
theorem C1_counterexample :
    candidate_passes_gates 0 100000 3 c1_candidate = false ∧
    candidate_passes_gates 1 100000 3 c1_candidate = true := by
  constructor <;> rfl

/--
Claim C1 (amended): decisions of the candidate scan are reproducible
from game state, tick time AND the wall clock residue mod 3: whenever
two executions read wall-clock values with equal residue mod 3, the
gates agree on every candidate; and the wall-clock dependence is
exactly that a candidate with total_count > 0 is skipped whenever
time(nullptr) mod 3 is 0.
-/
theorem C1_wallclock_dependence_rule (w1 w2 : Nat) (gametime : Int)
    (maxsize : Nat) (bo : BuildingCandidate) (hres : w1 % 3 = w2 % 3) :
    candidate_passes_gates w1 gametime maxsize bo =
      candidate_passes_gates w2 gametime maxsize bo ∧
    (w1 % 3 = 0 → 0 < bo.total_count →
      candidate_passes_gates w1 gametime maxsize bo = false) := by
  constructor
  · unfold candidate_passes_gates
    rw [hres]
  · intro hw ht
    unfold candidate_passes_gates
    by_cases hb : ¬bo.buildable
    · rw [if_pos hb]
    · rw [if_neg hb]
      by_cases hp : bo.prohibited_till > gametime
      · rw [if_pos hp]
      · rw [if_neg hp]
        by_cases hs : bo.size > maxsize
        · rw [if_pos hs]
        · rw [if_neg hs]
          rw [if_pos ⟨hw, ht⟩]

/--
Witness for C1 (amended rule): wall clocks 3 and 6 share residue 0, so
the gates agree, and with residue 0 the candidate with total_count = 1
is skipped.
-/
theorem C1_witness :
    candidate_passes_gates 3 100000 3 c1_candidate =
      candidate_passes_gates 6 100000 3 c1_candidate ∧
    candidate_passes_gates 3 100000 3 c1_candidate = false := by
  have h := C1_wallclock_dependence_rule 3 6 100000 3 c1_candidate (by decide)
  exact ⟨h.1, h.2 (by decide) (by decide)⟩

/-! ### Military loneliness (update_buildable_field, lines 1036-1105) -/

/--
A friendly military immovable found by the wider scan (radius
max(10, range)): either a construction site of a military site or a
built military site, with its map distance from the field and the
conquers value of its descriptor.
-/
structure MilImm where
  is_constructionsite : Bool
  dist : Nat
  conquers : Nat
  deriving DecidableEq, Repr

/--
Embeds the loneliness updates of transport.h lines 1070-1079 and
1083-1101: radius = conquers + 4, v = radius - dist; a construction
site multiplies when v > 0, a built site when v > 0 and dist > 0.
The source multiplies the integer field by the double dist/radius and
truncates on the store; this is modelled as natural floor division
lone * dist / radius.  Both the source product and the model multiply
by a factor in [0, 1), which is all the proved bounds use.
-/
def loneliness_step (lone : Nat) (m : MilImm) : Nat :=
  let radius : Nat := m.conquers + 4
  let v : Int := (radius : Int) - (m.dist : Int)
  if m.is_constructionsite then
    if v > 0 then lone * m.dist / radius else lone
  else
    if v > 0 ∧ 0 < m.dist then lone * m.dist / radius else lone

/--
Embeds transport.h line 1044 and the scan loop: the value is reset to
1000 and then folded over the found military immovables.
-/
def military_loneliness (imms : List MilImm) : Nat :=
  imms.foldl loneliness_step 1000

/--
A military immovable contributes a multiplication exactly when it lies
strictly inside its own influence radius conquers + 4 and, for a built
site, at a nonzero distance.
-/
def influences (m : MilImm) : Prop :=
  m.dist < m.conquers + 4 ∧ (m.is_constructionsite = true ∨ 0 < m.dist)

instance (m : MilImm) : Decidable (influences m) := by
  unfold influences
  infer_instance

/-- One step never increases the loneliness value. -/
theorem loneliness_step_le (lone : Nat) (m : MilImm) :
    loneliness_step lone m ≤ lone := by
  unfold loneliness_step
  by_cases h2 : ((m.conquers + 4 : Int) - (m.dist : Int) > 0)
  · have hd : m.dist ≤ m.conquers + 4 := by omega
    have hdiv : lone * m.dist / (m.conquers + 4) ≤ lone := by
      calc lone * m.dist / (m.conquers + 4)
          ≤ lone * (m.conquers + 4) / (m.conquers + 4) :=
            Nat.div_le_div_right (Nat.mul_le_mul_left lone hd)
        _ ≤ lone := Nat.le_of_eq (Nat.mul_div_cancel lone (by omega))
    by_cases h1 : m.is_constructionsite <;>
      by_cases h3 : 0 < m.dist <;>
        simp [h1, h2, h3, hdiv]
  · by_cases h1 : m.is_constructionsite <;> simp [h1, h2]

/-- A non-influencing immovable leaves the value unchanged. -/
theorem loneliness_step_eq (lone : Nat) (m : MilImm) (h : ¬influences m) :
    loneliness_step lone m = lone := by
  unfold influences at h
  push_neg at h
  unfold loneliness_step
  by_cases hd : (m.conquers + 4 : Int) - (m.dist : Int) > 0
  · have hdist : m.dist < m.conquers + 4 := by omega
    obtain ⟨hcs, hdz⟩ := h hdist
    simp [hcs, hd, hdz]
  · by_cases h1 : m.is_constructionsite <;> simp [h1, hd]

/-- An influencing immovable strictly decreases a positive value. -/
theorem loneliness_step_lt (lone : Nat) (m : MilImm) (h : influences m)
    (hl : 0 < lone) : loneliness_step lone m < lone := by
  unfold influences at h
  obtain ⟨hdist, hkind⟩ := h
  have hdiv : lone * m.dist / (m.conquers + 4) < lone := by
    rw [Nat.div_lt_iff_lt_mul (by omega : 0 < m.conquers + 4)]
    nlinarith [hl, hdist]
  unfold loneliness_step
  have hv : (m.conquers + 4 : Int) - (m.dist : Int) > 0 := by omega
  cases hkind with
  | inl hcs => simp [hcs, hv, hdiv]
  | inr hpos =>
    by_cases h1 : m.is_constructionsite <;> simp [h1, hv, hpos, hdiv]

/-- The fold never increases the starting value. -/
theorem loneliness_foldl_le (imms : List MilImm) :
    ∀ lone : Nat, imms.foldl loneliness_step lone ≤ lone := by
  induction imms with
  | nil => intro lone; simp
  | cons m ms ih =>
    intro lone
    calc ms.foldl loneliness_step (loneliness_step lone m)
        ≤ loneliness_step lone m := ih _
      _ ≤ lone := loneliness_step_le lone m

/-- A positive start is preserved exactly when nothing influences. -/
theorem loneliness_foldl_eq_iff (imms : List MilImm) :
    ∀ lone : Nat, 0 < lone →
      (imms.foldl loneliness_step lone = lone ↔
        ∀ m ∈ imms, ¬influences m) := by
  induction imms with
  | nil => intro lone _; simp
  | cons m ms ih =>
    intro lone hl
    simp only [List.foldl_cons, List.mem_cons]
    by_cases hm : influences m
    · have hlt := loneliness_step_lt lone m hm hl
      have hle := loneliness_foldl_le ms (loneliness_step lone m)
      constructor
      · intro h
        omega
      · intro h
        exact absurd hm (h m (Or.inl rfl))
    · rw [loneliness_step_eq lone m hm, ih lone hl]
      constructor
      · intro h k hk
        cases hk with
        | inl he => rw [he]; exact hm
        | inr hin => exact h k hin
      · intro h k hk
        exact h k (Or.inr hk)

/--
Counterexample for C4: a built friendly military site at distance 9
with conquers 4 lies within the scanned radius (9 <= 10) but outside
its own influence radius conquers + 4 = 8, so update_buildable_field
leaves military_loneliness at 1000 even though a friendly military site
lies within the scanned radius, contradicting the "equals 1000 exactly
when none is within the scanned radius" part of the claim.
-/
theorem C4_counterexample :
    military_loneliness [⟨false, 9, 4⟩] = 1000 ∧ (9 : Nat) ≤ 10 := by
  exact ⟨rfl, by omega⟩

/--
Claim C4 (amended): after every update the loneliness value lies in
[0, 1000], it is reset to 1000 at the start of the scan and multiplied
by dist/radius (radius = conquers + 4) for each influencing friendly
military immovable, and it equals 1000 exactly when no scanned friendly
military site or military construction site influences the field, i.e.
lies strictly inside its own radius conquers + 4 (built sites also at
nonzero distance).
-/
theorem C4_military_loneliness_rule (imms : List MilImm) :
    military_loneliness imms ≤ 1000 ∧
    (military_loneliness imms = 1000 ↔ ∀ m ∈ imms, ¬influences m) := by
  exact ⟨loneliness_foldl_le imms 1000,
    loneliness_foldl_eq_iff imms 1000 (by omega)⟩

/--
Witness for C4: a single influencing military site at distance 2 with
conquers 4 (radius 8) drives the value to 1000 * 2 / 8 = 250, within
the bounds, and the value is not 1000.
-/
theorem C4_witness :
    military_loneliness [⟨false, 2, 4⟩] ≤ 1000 ∧
    military_loneliness [⟨false, 2, 4⟩] ≠ 1000 := by
  have h := C4_military_loneliness_rule [⟨false, 2, 4⟩]
  refine ⟨h.1, ?_⟩
  intro heq
  have := (h.2.mp heq) ⟨false, 2, 4⟩ (by simp)
  exact this (by constructor <;> simp)

/-! ### Gain and lose of immovables
    (gain_immovable/lose_immovable, lines 3186-3223, and
    gain_building/lose_building, lines 3237-3365) -/

/-- The observer type of a building (BuildingObserver::Type). -/
inductive BType
  | productionsite
  | mine
  | militarysite
  | warehouse
  | trainingsite
  | boring
  deriving DecidableEq, Repr

/-- The static descriptor data of one building type. -/
structure BDescr where
  btype : BType
  inputs : List Nat
  outputs : List Nat

/--
A player immovable as dispatched by gain_immovable and lose_immovable:
a completed building of descriptor bid with site identity site, a
construction site for a building of descriptor target, a flag, or a
road.  Identities are abstract handles (the source uses pointers).
-/
inductive Immovable
  | completed (bid : Nat) (site : Nat)
  | constructionsite (target : Nat)
  | flag (f : Nat)
  | road (r : Nat)

/--
The observer state that the claim asserts is restored: the counters of
gain_building/lose_building, per-ware producer and consumer counters,
and the site, road and flag lists.  Counters are int-like in the
source.
-/
@[ext]
structure AIState where
  cnt_built : Nat → Int
  cnt_under_construction : Nat → Int
  num_constructionsites : Int
  num_prod_constructionsites : Int
  num_milit_constructionsites : Int
  numof_warehouses : Int
  producers : Nat → Int
  consumers : Nat → Int
  productionsites : List Nat
  mines : List Nat
  militarysites : List Nat
  roads : List Nat
  new_flags : List Nat
  eco_flags : List (List Nat)

/--
Embeds the increment loops over outputs_ and inputs_ (lines 3266-3270,
3277-3281 and the mirrored decrements at 3324-3330, 3340-3346): each
ware index in the list has its counter changed by d, in list order.
-/
def bump (d : Int) (g : Nat → Int) (ws : List Nat) : Nat → Int :=
  ws.foldl (fun h w => Function.update h w (h w + d)) g

/--
Embeds transport.h lines 3186-3195 together with gain_building (lines
3237-3293): counters for construction sites, sites appended to the
back of their list, producer and consumer counters raised, flags queued
on new_flags, roads pushed to the front.
-/
def gain_immovable (descr : Nat → BDescr) (imm : Immovable) (s : AIState) :
    AIState :=
  match imm with
  | .constructionsite target =>
    { s with
      cnt_under_construction :=
        Function.update s.cnt_under_construction target
          (s.cnt_under_construction target + 1),
      num_constructionsites := s.num_constructionsites + 1,
      num_prod_constructionsites :=
        if (descr target).btype = .productionsite then
          s.num_prod_constructionsites + 1
        else s.num_prod_constructionsites,
      num_milit_constructionsites :=
        if (descr target).btype = .militarysite then
          s.num_milit_constructionsites + 1
        else s.num_milit_constructionsites }
  | .completed bid site =>
    let s1 := { s with
      cnt_built := Function.update s.cnt_built bid (s.cnt_built bid + 1) }
    match (descr bid).btype with
    | .productionsite =>
      { s1 with
        productionsites := s1.productionsites ++ [site],
        producers := bump 1 s1.producers (descr bid).outputs,
        consumers := bump 1 s1.consumers (descr bid).inputs }
    | .mine =>
      { s1 with
        mines := s1.mines ++ [site],
        producers := bump 1 s1.producers (descr bid).outputs,
        consumers := bump 1 s1.consumers (descr bid).inputs }
    | .militarysite =>
      { s1 with militarysites := s1.militarysites ++ [site] }
    | .warehouse => { s1 with numof_warehouses := s1.numof_warehouses + 1 }
    | .trainingsite => s1
    | .boring => s1
  | .flag f => { s with new_flags := s.new_flags ++ [f] }
  | .road r => { s with roads := r :: s.roads }

/--
Embeds the flag removal of lose_immovable (lines 3201-3219): the
economy observer flag lists are searched first and the first list
containing the flag has its first occurrence erased (the function then
returns); the boolean records whether a list was hit.
-/
def erase_flag_eco : List (List Nat) → Nat → List (List Nat) × Bool
  | [], _ => ([], false)
  | l :: ls, f =>
    if f ∈ l then (l.erase f :: ls, true)
    else
      let p := erase_flag_eco ls f
      (l :: p.1, p.2)

/--
Embeds transport.h lines 3198-3223 together with lose_building (lines
3296-3365): mirrored decrements, removal of the first matching site
observer, flag removal from the economy lists or from new_flags, and
road removal (std::list::remove erases all matching elements).
-/
def lose_immovable (descr : Nat → BDescr) (imm : Immovable) (s : AIState) :
    AIState :=
  match imm with
  | .constructionsite target =>
    { s with
      cnt_under_construction :=
        Function.update s.cnt_under_construction target
          (s.cnt_under_construction target - 1),
      num_constructionsites := s.num_constructionsites - 1,
      num_prod_constructionsites :=
        if (descr target).btype = .productionsite then
          s.num_prod_constructionsites - 1
        else s.num_prod_constructionsites,
      num_milit_constructionsites :=
        if (descr target).btype = .militarysite then
          s.num_milit_constructionsites - 1
        else s.num_milit_constructionsites }
  | .completed bid site =>
    let s1 := { s with
      cnt_built := Function.update s.cnt_built bid (s.cnt_built bid - 1) }
    match (descr bid).btype with
    | .productionsite =>
      { s1 with
        productionsites := s1.productionsites.erase site,
        producers := bump (-1) s1.producers (descr bid).outputs,
        consumers := bump (-1) s1.consumers (descr bid).inputs }
    | .mine =>
      { s1 with
        mines := s1.mines.erase site,
        producers := bump (-1) s1.producers (descr bid).outputs,
        consumers := bump (-1) s1.consumers (descr bid).inputs }
    | .militarysite =>
      { s1 with militarysites := s1.militarysites.erase site }
    | .warehouse => { s1 with numof_warehouses := s1.numof_warehouses - 1 }
    | .trainingsite => s1
    | .boring => s1
  | .flag f =>
    let p := erase_flag_eco s.eco_flags f
    if p.2 then { s with eco_flags := p.1 }
    else { s with new_flags := s.new_flags.erase f }
  | .road r => { s with roads := s.roads.filter (fun x => decide (x ≠ r)) }

/--
The immovable is new to the observer state: its handle is not yet
tracked anywhere (which is the situation in which gain_immovable is
invoked by the notification hooks).
-/
def ImmFresh : Immovable → AIState → Prop
  | .completed _ site, s =>
    site ∉ s.productionsites ∧ site ∉ s.mines ∧ site ∉ s.militarysites
  | .constructionsite _, _ => True
  | .flag f, s => f ∉ s.new_flags ∧ ∀ l ∈ s.eco_flags, f ∉ l
  | .road r, s => r ∉ s.roads

/-- Adding one and then subtracting one at the same key is the identity. -/
theorem update_add_sub (g : Nat → Int) (t : Nat) :
    Function.update (Function.update g t (g t + 1)) t
      (Function.update g t (g t + 1) t - 1) = g := by
  funext x
  by_cases hx : x = t
  · subst hx
    simp [Function.update_apply]
  · simp [Function.update_apply, hx]

/-- The pointwise value of a bump is a shifted count. -/
theorem bump_apply (d : Int) (ws : List Nat) :
    ∀ (g : Nat → Int) (x : Nat), bump d g ws x = g x + d * ws.count x := by
  induction ws with
  | nil =>
    intro g x
    simp [bump]
  | cons w ws ih =>
    intro g x
    simp only [bump, List.foldl_cons] at *
    rw [ih]
    by_cases hx : x = w
    · subst hx
      simp [Function.update_apply, List.count_cons]
      ring
    · have hbeq : (x == w) = false := by
        simp [hx]
      simp [Function.update_apply, hx, List.count_cons, hbeq]

/-- Raising and then lowering the counters of the same list cancels. -/
theorem bump_cancel (ws : List Nat) (g : Nat → Int) :
    bump (-1) (bump 1 g ws) ws = g := by
  funext x
  rw [bump_apply, bump_apply]
  ring

/-- Erasing a fresh element appended at the back restores the list. -/
theorem erase_append_singleton (l : List Nat) (a : Nat) (h : a ∉ l) :
    (l ++ [a]).erase a = l := by
  rw [List.erase_append_right _ h]
  simp

/-- A flag in no economy list leaves the economy lists untouched. -/
theorem erase_flag_eco_of_not_mem (f : Nat) :
    ∀ ls : List (List Nat), (∀ l ∈ ls, f ∉ l) →
      erase_flag_eco ls f = (ls, false) := by
  intro ls
  induction ls with
  | nil =>
    intro _
    rfl
  | cons l ls ih =>
    intro h
    unfold erase_flag_eco
    rw [if_neg (h l (by simp))]
    rw [ih (fun l2 hl2 => h l2 (by simp [hl2]))]

/-- Filtering away an absent element is the identity. -/
theorem filter_ne_of_not_mem (l : List Nat) (r : Nat) (h : r ∉ l) :
    l.filter (fun x => decide (x ≠ r)) = l := by
  rw [List.filter_eq_self]
  intro a ha
  simp only [decide_eq_true_eq]
  intro he
  exact h (he ▸ ha)

/-- An if-guarded increment followed by the mirrored decrement cancels. -/
theorem if_add_if_sub (c : Prop) [Decidable c] (x : Int) :
    (if c then (if c then x + 1 else x) - 1 else (if c then x + 1 else x))
      = x := by
  by_cases h : c <;> simp [h]

/--
Claim C8: for every immovable that is not yet tracked by the observer
state (building, construction site, flag, or road), gain_immovable
followed by lose_immovable of the same immovable restores the observer
state exactly: cnt_built, cnt_under_construction, the three
construction-site counters, numof_warehouses, the per-ware producer and
consumer counters, and the productionsites, mines, militarysites, roads
and flag lists all return to their prior values.
-/
theorem C8_gain_lose_round_trip (descr : Nat → BDescr) (imm : Immovable)
    (s : AIState) (hfresh : ImmFresh imm s) :
    lose_immovable descr imm (gain_immovable descr imm s) = s := by
  cases imm with
  | constructionsite target =>
    simp only [gain_immovable, lose_immovable]
    ext x
    · rfl
    · exact congrFun (update_add_sub s.cnt_under_construction target) x
    · simp
    · exact if_add_if_sub _ _
    · exact if_add_if_sub _ _
    all_goals rfl
  | completed bid site =>
    obtain ⟨hps, hmn, hms⟩ := hfresh
    cases hb : (descr bid).btype with
    | productionsite =>
      simp only [gain_immovable, lose_immovable, hb]
      ext x
      · exact congrFun (update_add_sub s.cnt_built bid) x
      all_goals
        simp [bump_cancel, erase_append_singleton _ _ hps]
    | mine =>
      simp only [gain_immovable, lose_immovable, hb]
      ext x
      · exact congrFun (update_add_sub s.cnt_built bid) x
      all_goals
        simp [bump_cancel, erase_append_singleton _ _ hmn]
    | militarysite =>
      simp only [gain_immovable, lose_immovable, hb]
      ext x
      · exact congrFun (update_add_sub s.cnt_built bid) x
      all_goals
        simp [erase_append_singleton _ _ hms]
    | warehouse =>
      simp only [gain_immovable, lose_immovable, hb]
      ext x
      · exact congrFun (update_add_sub s.cnt_built bid) x
      all_goals simp
    | trainingsite =>
      simp only [gain_immovable, lose_immovable, hb]
      ext x
      · exact congrFun (update_add_sub s.cnt_built bid) x
      all_goals simp
    | boring =>
      simp only [gain_immovable, lose_immovable, hb]
      ext x
      · exact congrFun (update_add_sub s.cnt_built bid) x
      all_goals simp
  | flag f =>
    obtain ⟨hnf, heco⟩ := hfresh
    simp only [gain_immovable, lose_immovable]
    rw [erase_flag_eco_of_not_mem f s.eco_flags heco]
    simp only [Bool.false_eq_true, if_false]
    ext x
    all_goals simp [erase_append_singleton _ _ hnf]
  | road r =>
    have hr : r ∉ s.roads := hfresh
    have hstep : lose_immovable descr (Immovable.road r)
        (gain_immovable descr (Immovable.road r) s) =
        { s with roads := (r :: s.roads).filter (fun x => decide (x ≠ r)) } :=
      rfl
    rw [hstep, List.filter_cons]
    rw [if_neg (by simp), filter_ne_of_not_mem s.roads r hr]

/-- A concrete observer state used to witness the round trip. -/
def c8_state : AIState :=
  { cnt_built := fun _ => 0, cnt_under_construction := fun _ => 0,
    num_constructionsites := 0, num_prod_constructionsites := 0,
    num_milit_constructionsites := 0, numof_warehouses := 0,
    producers := fun _ => 0, consumers := fun _ => 0,
    productionsites := [9], mines := [], militarysites := [],
    roads := [3], new_flags := [7], eco_flags := [[1, 2]] }

/-- A concrete descriptor table: every building id is a production site
consuming ware 0 and producing ware 1. -/
def c8_descr : Nat → BDescr :=
  fun _ => { btype := .productionsite, inputs := [0], outputs := [1] }

/--
Witness for C8: gaining and losing a fresh production site with handle
5 on the concrete state restores it exactly.
-/
theorem C8_witness :
    lose_immovable c8_descr (.completed 0 5)
      (gain_immovable c8_descr (.completed 0 5) c8_state) = c8_state :=
  C8_gain_lose_round_trip c8_descr (.completed 0 5) c8_state
    (by refine ⟨?_, ?_, ?_⟩ <;> simp [c8_state])

end DefaultAIModel
